import Mathlib

/-!
Shallow embedding of the tinynn-autograd GPU strided-array engine
(`src/core/ndarray.py` and `src/core/ops_gpu.py`).

Modelling conventions:
* float32 element values are modelled as integers (`Int`): every value the
  claims exercise is a small integer, and every operation they exercise
  (copy, negation, addition, multiplication, maximum) is exact float32
  arithmetic on such values.
* a device buffer is a `List Int`; an out-of-range read (`List.getD _ _ 0`)
  yields 0, and an out-of-range write (`List.set`) is dropped.
* Python `assert`/`raise` is modelled with `Except String`; the error string
  names the spec's error taxonomy entry (`"ShapeError"`, `"IndexError"`).
* generated-kernel index arithmetic is translated statement by statement from
  the kernel source strings in `src/core/ops_gpu.py`.
-/

namespace TinyNN

/-- `utils.math.prod` — product of a shape. -/
def prodl (l : List Nat) : Nat := l.prod

/-- Supported dtypes (`utils.dtype`): float32 only. -/
inductive Dtype where
  | float32
deriving DecidableEq, Repr

/-- Device buffer contents (`cl.Buffer`), one integer-valued float32 element each. -/
abbrev Buf := List Int

/-- The strided-view descriptor of `GPUArray` (`src/core/ndarray.py`):
shape, per-dimension element strides, element offset, contiguity flags. -/
structure View where
  shape : List Nat
  strides : List Nat
  offset : Nat
  c_contiguous : Bool
  f_contiguous : Bool
  dtype : Dtype
deriving DecidableEq, Repr

/-- A host-side array as returned by `GPUArray.numpy()`: shape, dtype and
row-major element values. -/
structure HostArray where
  shape : List Nat
  dtype : Dtype
  data : List Int
deriving DecidableEq, Repr

/-- C-contiguous strides, `ndarray.py` line 25:
`strides = tuple(prod(shape[i+1:]) for i in range(len(shape)))`. -/
def contigStridesC (shape : List Nat) : List Nat :=
  (List.range shape.length).map fun i => prodl (shape.drop (i + 1))

/-- F-contiguous strides, `ndarray.py` line 149 (reshape's F branch):
`strides = (prod(shape[:i]) for i in range(len(shape)))`. -/
def contigStridesF (shape : List Nat) : List Nat :=
  (List.range shape.length).map fun i => prodl (shape.take i)

/-- `sorted(strides)` (Python ascending sort). -/
def sortNat (l : List Nat) : List Nat := List.insertionSort (· ≤ ·) l

/-- `GPUArray.update_contiguousness` (`ndarray.py` lines 196-200): drop
size-1 dimensions, compare the stride list with its sorted form
(descending for C, ascending for F).  Returns `(c_contiguous, f_contiguous)`. -/
def contigFlags (shape strides : List Nat) : Bool × Bool :=
  let s := ((shape.zip strides).filter fun p => p.1 ≠ 1).map Prod.snd
  (decide ((sortNat s).reverse = s), decide (sortNat s = s))

/-- `GPUArray.__init__` from host data (`ndarray.py` lines 13-29): the buffer
is the row-major host data, strides are C-contiguous, offset 0, contiguity
flags recomputed. -/
def mkGPUArray (data : List Int) (shape : List Nat) : View × Buf :=
  let strides := contigStridesC shape
  let cf := contigFlags shape strides
  ({ shape := shape, strides := strides, offset := 0,
     c_contiguous := cf.1, f_contiguous := cf.2, dtype := Dtype.float32 }, data)

/-- `contiguous_op` (`ops_gpu.py` lines 123-146).  Its very first statement
(line 126, `args = "".join(... for i in range(x.ndims))`) reads `x.ndims`,
but `GPUArray` defines only the property `ndim` (`ndarray.py` line 93) and
nothing ever assigns `ndims`, so every call raises `AttributeError` before
any kernel source is assembled or any device work is enqueued. -/
def contiguous_op (x : View) (buf : Buf) : Except String (View × Buf) :=
  .error "AttributeError"

/-- `GPUArray.numpy` (`ndarray.py` lines 126-129): materialize with
`contiguous()` — called unconditionally — and copy `prod shape` elements from
the start of that buffer into a host array of the view's shape and dtype.
Because `contiguous_op` raises `AttributeError` on every call, so does every
`numpy()` call; the `ok` branch transcribes the copy that lines 127-129 would
perform. -/
def npNumpy (x : View) (buf : Buf) : Except String HostArray :=
  match contiguous_op x buf with
  | .error e => .error e
  | .ok cvb =>
      .ok { shape := x.shape, dtype := x.dtype,
            data := (List.range (prodl x.shape)).map fun i => cvb.2.getD i 0 }

/-- Linear element address of a multi-index under given strides
(spec-side definition): `Σ idx_i * stride_i`. -/
def elemAddr (strides idx : List Nat) : Nat :=
  (List.zipWith (· * ·) strides idx).sum

/-- `GPUArray.permute` (`ndarray.py` lines 189-194): reorder shape and strides
by `axes`, keep buffer and offset, recompute contiguity.  An axis outside the
rank is a caller error (Python raises). -/
def permute (x : View) (axes : List Nat) : Except String View :=
  if (axes.all fun a => decide (a < x.shape.length)) &&
     (axes.all fun a => decide (a < x.strides.length)) then
    let shape := axes.map fun a => x.shape.getD a 0
    let strides := axes.map fun a => x.strides.getD a 0
    let cf := contigFlags shape strides
    .ok { shape := shape, strides := strides, offset := x.offset,
          c_contiguous := cf.1, f_contiguous := cf.2, dtype := x.dtype }
  else .error "IndexError"

/-- `GPUArray.T` (`ndarray.py` lines 202-205): permute with reversed axes. -/
def transposeV (x : View) : Except String View :=
  permute x (List.range x.shape.length).reverse

/-- The strides loop of `GPUArray.expand` (`ndarray.py` lines 159-163):
for each dimension, if the current size is smaller than the target the
current size must be 1 (else `ShapeError`) and the stride becomes 0;
otherwise — including a target smaller than the current size — the stride is
kept unchecked. -/
def expandStrides : List Nat → List Nat → List Nat → Except String (List Nat)
  | [], [], _ => .ok []
  | s1 :: r1, s2 :: r2, st :: rst =>
      if s1 < s2 ∧ s1 ≠ 1 then .error "ShapeError"
      else (expandStrides r1 r2 rst).map
        fun rest => (if s1 < s2 then 0 else st) :: rest
  | _, _, _ => .error "ShapeError"

/-- `GPUArray.expand` (`ndarray.py` lines 156-166): requires equal rank,
computes strides with `expandStrides`, keeps the offset, and marks the result
as neither C- nor F-contiguous. -/
def expand (x : View) (shape : List Nat) : Except String View :=
  if x.shape.length = shape.length ∧ x.strides.length = shape.length then
    (expandStrides x.shape shape x.strides).map fun sts =>
      { shape := shape, strides := sts, offset := x.offset,
        c_contiguous := false, f_contiguous := false, dtype := x.dtype }
  else .error "ShapeError"

/-- `-1` placeholder resolution of `GPUArray.reshape` (`ndarray.py` lines
135-141): at most one `-1`, replaced by `size / prod(other dims)`, which must
divide evenly.  (Python raises `ZeroDivisionError` when the other dims
multiply to 0; that is folded into the error case.) -/
def resolveShape (size : Nat) (shape : List Int) : Except String (List Int) :=
  if (-1 : Int) ∈ shape then
    if shape.count (-1) ≤ 1 then
      let infer := prodl ((shape.filter fun s => s ≠ -1).map Int.toNat)
      if infer ≠ 0 ∧ size % infer = 0 then
        .ok (shape.map fun s => if s = -1 then ((size / infer : Nat) : Int) else s)
      else .error "ShapeError"
    else .error "ShapeError"
  else .ok shape

/-- The descriptor-only branch of `GPUArray.reshape` (`ndarray.py` lines
144-151): new strides in the contiguity direction, offset kept, contiguity
recomputed. -/
def reshapeCore (x : View) (shape : List Nat) : View :=
  let strides := if x.c_contiguous then contigStridesC shape else contigStridesF shape
  let cf := contigFlags shape strides
  { shape := shape, strides := strides, offset := x.offset,
    c_contiguous := cf.1, f_contiguous := cf.2, dtype := x.dtype }

/-- `GPUArray.reshape` (`ndarray.py` lines 134-154).  Requires the element
counts to match (`ShapeError`); a C- or F-contiguous view is reshaped by a
pure descriptor change; any other view is first materialized with
`self.contiguous()` and the reshape retried on the copy — but `contiguous_op`
raises `AttributeError` on every call (it reads the undefined `x.ndims`), so
the materialize branch always fails.  The `ok` branch transcribes the retry
the code would perform on a materialized copy (a copy flagged neither C- nor
F-contiguous would recurse forever; that dead case is modelled as an error).
Entries below `-1` are nonsense Python would pass through; they are modelled
as `ShapeError`. -/
def reshapeChecked (x : View) (buf : Buf) (shape1 : List Int) :
    Except String (View × Buf) :=
  if shape1.all fun s => decide (0 ≤ s) then
    if prodl (shape1.map Int.toNat) = prodl x.shape then
      if x.c_contiguous || x.f_contiguous then
        .ok (reshapeCore x (shape1.map Int.toNat), buf)
      else
        match contiguous_op x buf with
        | .error e => .error e
        | .ok cvb =>
          if cvb.1.c_contiguous || cvb.1.f_contiguous then
            .ok (reshapeCore cvb.1 (shape1.map Int.toNat), cvb.2)
          else .error "RecursionError"
    else .error "ShapeError"
  else .error "ShapeError"

def reshape (x : View) (buf : Buf) (shape0 : List Int) :
    Except String (View × Buf) :=
  match resolveShape (prodl x.shape) shape0 with
  | .error e => .error e
  | .ok shape1 => reshapeChecked x buf shape1

/-- The per-pair compatibility test of `broadcast` (`ops_gpu.py` lines 37-39):
a pair is bad when the sizes differ and neither is 1. -/
def badPair (p : Nat × Nat) : Bool :=
  decide (p.1 ≠ p.2) && decide (p.1 ≠ 1) && decide (p.2 ≠ 1)

/-- The left-padded shape `[1]*(ndims-len(shape)) + shape` used by
`broadcast` (`ops_gpu.py` lines 41-44). -/
def padShape (nd : Nat) (shape : List Nat) : List Int :=
  List.replicate (nd - shape.length) (1 : Int) ++
    shape.map fun d : Nat => (d : Int)

/-- The rank-`nd` left-padding of a shape with size-1 dimensions (spec-side
definition, used to state what the padding stage of `broadcast` produces). -/
def paddedShape (nd : Nat) (shape : List Nat) : List Nat :=
  List.replicate (nd - shape.length) 1 ++ shape

/-- The expansion stage of `broadcast` (`ops_gpu.py` lines 45-50): elementwise
maximum of the (rank-aligned) shapes as target, expanding each operand whose
shape differs. -/
def broadcastExpand (a1 : View) (bufA1 : Buf) (b1 : View) (bufB1 : Buf) :
    Except String ((View × Buf) × (View × Buf)) :=
  match (if a1.shape ≠ List.zipWith max a1.shape b1.shape
         then expand a1 (List.zipWith max a1.shape b1.shape) else .ok a1),
        (if b1.shape ≠ List.zipWith max a1.shape b1.shape
         then expand b1 (List.zipWith max a1.shape b1.shape) else .ok b1) with
  | .ok a2, .ok b2 => .ok ((a2, bufA1), (b2, bufB1))
  | .error e, _ => .error e
  | .ok _, .error e => .error e

/-- `broadcast` (`ops_gpu.py` lines 34-50): equal shapes pass through;
otherwise the compatibility check runs over `zip(a.shape, b.shape)` of the
ORIGINAL shapes (left-aligned, truncated to the shorter rank), then the
shorter operand is left-padded with 1s via `reshape`, and operands whose
shape differs from the elementwise maximum are expanded. -/
def broadcast (a : View) (bufA : Buf) (b : View) (bufB : Buf) :
    Except String ((View × Buf) × (View × Buf)) :=
  if a.shape = b.shape then .ok ((a, bufA), (b, bufB))
  else if (a.shape.zip b.shape).any badPair then .error "ShapeError"
  else
    match (if a.shape.length ≠ max a.shape.length b.shape.length
           then reshape a bufA (padShape (max a.shape.length b.shape.length) a.shape)
           else .ok (a, bufA)),
          (if b.shape.length ≠ max a.shape.length b.shape.length
           then reshape b bufB (padShape (max a.shape.length b.shape.length) b.shape)
           else .ok (b, bufB)) with
    | .ok (a1, bufA1), .ok (b1, bufB1) => broadcastExpand a1 bufA1 b1 bufB1
    | .error e, _ => .error e
    | .ok _, .error e => .error e

/-- `matmul_op` (`ops_gpu.py` lines 95-120).  The kernel-argument list at
line 118 reads `a._c_contiguous` and `b._c_contiguous`, attributes that
`GPUArray` never defines (its contiguity flag is spelled `c_contiguous`), so
every call raises `AttributeError` after allocating the result buffer and
before any kernel is built or launched. -/
def matmul_op (a : View) (bufA : Buf) (b : View) (bufB : Buf) :
    Except String (View × Buf) :=
  .error "AttributeError"

/-- One tree-reduction round of the `reduce_op` kernel (`ops_gpu.py` lines
192-199): every lane `j < stride` combines scratch slots `j` and `j+stride`;
the other slots are unchanged.  (Lanes `j ≥ stride` read but never write, so
a simultaneous-snapshot round is exact.) -/
def treeStep (f : Int → Int → Int) (B : List Int) (stride : Nat) : List Int :=
  (List.range B.length).map fun j =>
    if j < stride then f (B.getD j 0) (B.getD (j + stride) 0) else B.getD j 0

/-- The in-scratch reduction of one work group (`ops_gpu.py` lines 182-200):
the local size is fixed at `group_size = 2**4 = 16`, so the rounds use
strides 8, 4, 2, 1 and the group's result is scratch slot 0.  Scratch slots
beyond the loaded elements are modelled as zero-initialized (the kernel reads
them uninitialized when the group is not full). -/
def groupReduce (f : Int → Int → Int) (g : List Int) : Int :=
  let B := g.take 16 ++ List.replicate (16 - (g.take 16).length) 0
  (treeStep f (treeStep f (treeStep f (treeStep f B 8) 4) 2) 1).getD 0 0

/-- One pass of `reduce_op` over a flattened (1-D) input (`ops_gpu.py` lines
154-205, `axis=None` path): `n_groups = L // 16`.  With `n_groups ≤ 1` the
output buffer has a single element — work items beyond the first full group
write out of bounds of it and are dropped.  Otherwise the output has exactly
`n_groups` elements, so the trailing `L mod 16` input elements belong to no
surviving group and are dropped. -/
def reducePass (f : Int → Int → Int) (vs : List Int) : List Int :=
  if vs.length / 16 ≤ 1 then [groupReduce f vs]
  else (List.range (vs.length / 16)).map fun g =>
    groupReduce f ((vs.drop (16 * g)).take 16)

/-- The recursion of `reduce_op` (`ops_gpu.py` lines 206-208): while more
than one group was spawned (`n_groups > 1`), reduce the per-group partials
again.  The first argument is recursion fuel: each pass maps a length-`L`
input to `L / 16` partials, so `L` bounds the recursion depth and the fuel
case is never the one that answers. -/
def reduceLoop : Nat → (Int → Int → Int) → List Int → List Int
  | 0, f, vs => reducePass f vs
  | fuel + 1, f, vs =>
      if 1 < vs.length / 16 then reduceLoop fuel f (reducePass f vs)
      else reducePass f vs

/-- `reduce_op` on a flattened C-contiguous input (`GPUArray.sum`/`max` with
`axis=None` flatten the shape to `(prod shape,)` and hand over the raw
buffer). -/
def reduce_op (f : Int → Int → Int) (vs : List Int) : List Int :=
  reduceLoop vs.length f vs

/-- A basic per-dimension index key (`GPUArray.__getitem__` accepts integers
and `start:stop` slices; steps and fancy indexing are unsupported). -/
inductive IndexKey where
  | ix (k : Int)
  | slc (start stop : Option Int)
deriving DecidableEq, Repr

/-- The per-dimension loop of `GPUArray.__getitem__` (`ndarray.py` lines
64-78), recursing over the key and the leading dimensions.  Returns the kept
`(size, stride)` pairs (an integer index removes its dimension), the offset
contribution `Σ stride_i * index_i`, and whether any slice occurred.
Dimensions beyond the key are kept unchanged; a key longer than the rank is a
caller error. -/
def getitemAux : List IndexKey → List Nat → List Nat →
    Except String (List (Nat × Nat) × Nat × Bool)
  | [], ds, sts => .ok (ds.zip sts, 0, false)
  | .ix k :: ks, d :: ds, st :: sts =>
      let k' := if k < 0 then k + (d : Int) else k
      if 0 ≤ k' ∧ k' < (d : Int) then
        match getitemAux ks ds sts with
        | .ok (kept, off, sl) => .ok (kept, st * k'.toNat + off, sl)
        | .error e => .error e
      else .error "IndexError"
  | .slc s e :: ks, d :: ds, st :: sts =>
      let start := match s with
        | none => (0 : Int)
        | some v => if v < 0 then v + (d : Int) else v
      let stop := match e with
        | none => (d : Int)
        | some v => if v < 0 then v + (d : Int) else v
      if 0 ≤ start ∧ start < stop ∧ stop ≤ (d : Int) then
        match getitemAux ks ds sts with
        | .ok (kept, off, _) =>
            .ok (((stop - start).toNat, st) :: kept, st * start.toNat + off, true)
        | .error e => .error e
      else .error "IndexError"
  | _ :: _, _, _ => .error "IndexError"

/-- `GPUArray.__getitem__` (`ndarray.py` lines 55-81): a shallow copy whose
kept dimensions, strides and offset come from `getitemAux`; contiguity flags
are cleared when any slice occurred (line 78) and inherited unchanged
otherwise (integer indexing does not recompute them). -/
def getitem (x : View) (key : List IndexKey) : Except String View :=
  match getitemAux key x.shape x.strides with
  | .error e => .error e
  | .ok (kept, off, sl) =>
      .ok { shape := kept.map Prod.fst, strides := kept.map Prod.snd,
            offset := x.offset + off,
            c_contiguous := if sl then false else x.c_contiguous,
            f_contiguous := if sl then false else x.f_contiguous,
            dtype := x.dtype }

/-- Spec-side reading of one dimension of the indexing claim: an integer
index wraps once by the dimension size when negative and must then lie in
`[0, size)` (else `IndexError`), removes the dimension, and contributes
`stride * index` to the offset; a slice defaults to `0:size`, wraps negative
endpoints once, must satisfy `0 ≤ start < stop ≤ size` (else `IndexError`),
keeps the dimension with size `stop - start`, and contributes
`stride * start`. -/
def specDim (d st : Nat) : IndexKey → Except String (Option (Nat × Nat) × Nat)
  | .ix k =>
      let k' := if k < 0 then k + (d : Int) else k
      if 0 ≤ k' ∧ k' < (d : Int) then .ok (none, st * k'.toNat)
      else .error "IndexError"
  | .slc s e =>
      let start := match s with
        | none => (0 : Int)
        | some v => if v < 0 then v + (d : Int) else v
      let stop := match e with
        | none => (d : Int)
        | some v => if v < 0 then v + (d : Int) else v
      if 0 ≤ start ∧ start < stop ∧ stop ≤ (d : Int) then
        .ok (some ((stop - start).toNat, st), st * start.toNat)
      else .error "IndexError"

/-- Sequence `specDim` over the keyed dimensions, stopping at the first
error (spec-side definition). -/
def specDims : List (IndexKey × Nat × Nat) →
    Except String (List (Option (Nat × Nat) × Nat))
  | [] => .ok []
  | (k, d, st) :: rest =>
      match specDim d st k, specDims rest with
      | .ok r, .ok rs => .ok (r :: rs)
      | .error e, _ => .error e
      | .ok _, .error e => .error e

def isSliceKey : IndexKey → Bool
  | .ix _ => false
  | .slc _ _ => true

/-- Spec-side assembly of the indexing claim: per-dimension outcomes from
`specDim`, removed dimensions dropped, trailing dimensions kept, offset
increased by the sum of the contributions, and the whole result marked
neither C- nor F-contiguous exactly when a slice occurred. -/
def getitemSpec (x : View) (key : List IndexKey) : Except String View :=
  match specDims (key.zip (x.shape.zip x.strides)) with
  | .error e => .error e
  | .ok outs =>
      let kept := outs.filterMap Prod.fst ++
        (x.shape.drop key.length).zip (x.strides.drop key.length)
      let sl := key.any isSliceKey
      .ok { shape := kept.map Prod.fst, strides := kept.map Prod.snd,
            offset := x.offset + (outs.map Prod.snd).sum,
            c_contiguous := if sl then false else x.c_contiguous,
            f_contiguous := if sl then false else x.f_contiguous,
            dtype := x.dtype }

/-- All multi-indices of a shape in row-major order (the grid of global ids
of an elementwise kernel launch; `allIdx [] = [[]]` models the single work
item of a 0-d launch). -/
def allIdx : List Nat → List (List Nat)
  | [] => [[]]
  | d :: ds => (List.range d).flatMap fun i => (allIdx ds).map fun idx => i :: idx

/-- A fresh result array as allocated by `unary_op`/`binary_op` when no
destination is supplied (`a.__class__(shape=a.shape, dtype=a.dtype)`);
device memory is modelled as zero-initialized. -/
def freshLike (a : View) : View × Buf :=
  let strides := contigStridesC a.shape
  let cf := contigFlags a.shape strides
  ({ shape := a.shape, strides := strides, offset := 0,
     c_contiguous := cf.1, f_contiguous := cf.2, dtype := a.dtype },
   List.replicate (prodl a.shape) 0)

/-- `unary_op` (`ops_gpu.py` lines 53-70): one work item per element of
`a.shape`; each work item reads `A[Σ idx_i * a_stride_i]` and writes
`f` of it to `res[Σ idx_i * res_stride_i]`.  Only the strides are passed to
the kernel — neither operand's offset appears. -/
def unary_op (f : Int → Int) (a : View) (bufA : Buf)
    (ret : Option (View × Buf)) : View × Buf :=
  let rv := (ret.getD (freshLike a)).1
  let rb := (ret.getD (freshLike a)).2
  (rv, (allIdx a.shape).foldl (fun acc idx =>
    acc.set (elemAddr rv.strides idx)
      (f (bufA.getD (elemAddr a.strides idx) 0))) rb)

/-- `binary_op` (`ops_gpu.py` lines 73-92): broadcast both operands first,
then one work item per element of the broadcast shape; each work item
combines `A[Σ idx_i * a_stride_i]` and `B[Σ idx_i * b_stride_i]` into
`res[Σ idx_i * res_stride_i]`.  Only strides are passed — no offsets. -/
def binary_op (f : Int → Int → Int) (a : View) (bufA : Buf) (b : View)
    (bufB : Buf) (ret : Option (View × Buf)) : Except String (View × Buf) :=
  match broadcast a bufA b bufB with
  | .error e => .error e
  | .ok ((a1, bufA1), (b1, bufB1)) =>
      let rv := (ret.getD (freshLike a1)).1
      let rb := (ret.getD (freshLike a1)).2
      .ok (rv, (allIdx a1.shape).foldl (fun acc idx =>
        acc.set (elemAddr rv.strides idx)
          (f (bufA1.getD (elemAddr a1.strides idx) 0)
             (bufB1.getD (elemAddr b1.strides idx) 0))) rb)

/-- The shape-transform operations of the Strided View layer (slice/index,
reshape, permute, expand). -/
inductive XformOp where
  | index (key : List IndexKey)
  | reshapeOp (shape : List Int)
  | permuteOp (axes : List Nat)
  | expandOp (shape : List Nat)

/-- Apply one shape-transform operation to a view over its buffer, returning
the derived view (sharing or replacing the buffer). -/
def applyXform (v : View) (b : Buf) : XformOp → Except String (View × Buf)
  | .index key => (getitem v key).map fun w => (w, b)
  | .reshapeOp s => reshape v b s
  | .permuteOp axes => (permute v axes).map fun w => (w, b)
  | .expandOp s => (expand v s).map fun w => (w, b)

/-- A heap of live arrays (descriptor and buffer contents per array).  Every
transform derives its result from `copy.copy` of the receiver and patches
only the copy, so running one appends a new entry on success and — since
errors are raised before any descriptor or device write — leaves the heap
untouched on failure. -/
def runXform (σ : List (View × Buf)) (i : Nat) (op : XformOp) :
    List (View × Buf) :=
  match σ[i]? with
  | none => σ
  | some (v, b) =>
      match applyXform v b op with
      | .ok vb => σ ++ [vb]
      | .error _ => σ

/-- The kernel cache (`ops_gpu.py` lines 18-23): `cl_build` is wrapped in
`functools.lru_cache()` whose DEFAULT maxsize is 128.  Entries are keyed by
the argument tuple `(name, program)`; the abstract compiled callable is
identified with its key.  `entries` is most-recently-used first; `compiles`
counts compilations. -/
structure KernelCache where
  entries : List (Nat × Nat)
  compiles : Nat
deriving DecidableEq, Repr

def compileK (k : Nat) : Nat := k

/-- One call through the `lru_cache`-wrapped `cl_build`: a hit returns the
stored callable (moving the entry to most-recently-used) without compiling; a
miss compiles, stores, and evicts the least-recently-used entry once the
cache would exceed 128 entries. -/
def cl_buildC (c : KernelCache) (k : Nat) : KernelCache × Nat :=
  match c.entries.lookup k with
  | some v =>
      ({ entries := (k, v) :: c.entries.eraseP (fun p => p.1 == k),
         compiles := c.compiles }, v)
  | none =>
      let v := compileK k
      ({ entries := ((k, v) :: c.entries).take 128,
         compiles := c.compiles + 1 }, v)

def emptyCache : KernelCache := { entries := [], compiles := 0 }

def runKeys (c : KernelCache) (ks : List Nat) : KernelCache :=
  ks.foldl (fun c k => (cl_buildC c k).1) c

/-! ### C1: construct-then-numpy round trip -/

/-- **C1 (code bug).** `GPUArray(data)` followed by `numpy()` never returns a
host array on this source: `numpy()` materializes via `contiguous()`
unconditionally (`ndarray.py` line 128), and `contiguous_op`'s first
statement reads `x.ndims` — an attribute `GPUArray` does not define (`ndim`
is the property's name, `ndarray.py` line 93) — so every readback raises
`AttributeError`.  The repository's own tests compare `myarr.numpy()` with
the host data throughout (`test_ndarray.py` line 18), so the claimed
round trip is the evident intent and the attribute name the slip. -/
theorem numpy_readback_attribute_crash :
    (∀ (shape : List Nat) (data : List Int),
      npNumpy (mkGPUArray data shape).1 (mkGPUArray data shape).2 =
        Except.error "AttributeError") ∧
    npNumpy (mkGPUArray [1, 2, 3, 4, 5, 6] [2, 3]).1
        (mkGPUArray [1, 2, 3, 4, 5, 6] [2, 3]).2 =
      Except.error "AttributeError" :=
  ⟨fun _ _ => rfl, rfl⟩

/-! ### C2: contiguous materialization -/

/-- **C2 (code bug).** `contiguous_op` raises `AttributeError` on every call
(it reads the undefined `x.ndims`; `GPUArray` defines `ndim`), so it never
returns the materialized C-contiguous array the claim describes.  In
particular the claim's own scenario — transpose the C-contiguous
`[[1,2,3],[4,5,6]]`, materialize with `contiguous()`, read the raw storage —
crashes instead of producing the row-major linearization `[1,4,2,5,3,6]` of
the transposed values. -/
theorem contiguous_op_attribute_crash :
    (∀ (x : View) (buf : Buf),
      contiguous_op x buf = Except.error "AttributeError") ∧
    transposeV (mkGPUArray [1, 2, 3, 4, 5, 6] [2, 3]).1 =
      Except.ok
        { shape := [3, 2], strides := [1, 3], offset := 0,
          c_contiguous := false, f_contiguous := true,
          dtype := Dtype.float32 } ∧
    contiguous_op
        { shape := [3, 2], strides := [1, 3], offset := 0,
          c_contiguous := false, f_contiguous := true,
          dtype := Dtype.float32 } [1, 2, 3, 4, 5, 6] =
      Except.error "AttributeError" :=
  ⟨fun _ _ => rfl, by rfl, rfl⟩

/-! ### C7: expand -/

theorem expandStrides_ok_iff : ∀ (s1l s2l stl : List Nat),
    s1l.length = s2l.length → s1l.length = stl.length →
    ((∃ r, expandStrides s1l s2l stl = .ok r) ↔
      ∀ p ∈ s1l.zip s2l, p.1 < p.2 → p.1 = 1) := by
  intro s1l
  induction s1l with
  | nil =>
    intro s2l stl h1 _
    cases s2l with
    | nil => simp [expandStrides]
    | cons _ _ => simp at h1
  | cons s1 r1 ih =>
    intro s2l stl h1 h2
    cases s2l with
    | nil => simp at h1
    | cons s2 r2 =>
      cases stl with
      | nil => simp at h2
      | cons st rst =>
        simp only [List.length_cons, Nat.succ.injEq] at h1 h2
        show ((∃ r, expandStrides (s1 :: r1) (s2 :: r2) (st :: rst) = .ok r) ↔ _)
        unfold expandStrides
        by_cases hbad : s1 < s2 ∧ s1 ≠ 1
        · rw [if_pos hbad]
          constructor
          · rintro ⟨r, hr⟩; cases hr
          · intro hall
            exact absurd (hall (s1, s2) (by simp) hbad.1) hbad.2
        · rw [if_neg hbad]
          have hhead : s1 < s2 → s1 = 1 := by
            intro hlt
            by_contra hne
            exact hbad ⟨hlt, hne⟩
          constructor
          · rintro ⟨r, hr⟩ p hp hlt
            rcases List.mem_cons.mp hp with rfl | hp'
            · exact hhead hlt
            · refine ((ih r2 rst h1 h2).mp ?_) p hp' hlt
              cases hrec : expandStrides r1 r2 rst with
              | ok rr => exact ⟨rr, rfl⟩
              | error e => rw [hrec] at hr; cases hr
          · intro hall
            obtain ⟨rr, hrr⟩ := (ih r2 rst h1 h2).mpr
              (fun p hp hlt => hall p (List.mem_cons_of_mem _ hp) hlt)
            exact ⟨(if s1 < s2 then 0 else st) :: rr, by rw [hrr]; rfl⟩

theorem expandStrides_ok_val : ∀ (s1l s2l stl r : List Nat),
    expandStrides s1l s2l stl = .ok r →
    r = (s1l.zip (s2l.zip stl)).map
      fun p => if p.1 < p.2.1 then 0 else p.2.2 := by
  intro s1l
  induction s1l with
  | nil =>
    intro s2l stl r h
    cases s2l with
    | nil => cases h; rfl
    | cons _ _ => cases h
  | cons s1 r1 ih =>
    intro s2l stl r h
    cases s2l with
    | nil => cases h
    | cons s2 r2 =>
      cases stl with
      | nil => cases h
      | cons st rst =>
        unfold expandStrides at h
        split at h
        · cases h
        · cases hrec : expandStrides r1 r2 rst with
          | ok rr =>
            rw [hrec] at h
            cases h
            simp [List.zip, ih r2 rst rr hrec]
          | error e => rw [hrec] at h; cases h

theorem expand_ok_fields (x : View) (t : List Nat) (v : View)
    (h : expand x t = .ok v) :
    v.shape = t ∧ v.offset = x.offset ∧ v.c_contiguous = false ∧
    v.f_contiguous = false ∧ v.dtype = x.dtype ∧
    expandStrides x.shape t x.strides = .ok v.strides := by
  unfold expand at h
  split at h
  · cases hE : expandStrides x.shape t x.strides with
    | ok r =>
      rw [hE] at h
      cases h
      exact ⟨rfl, rfl, rfl, rfl, rfl, rfl⟩
    | error e => rw [hE] at h; cases h
  · cases h

theorem expand_ok_of_growth (x : View) (target : List Nat)
    (h1 : x.shape.length = target.length)
    (h2 : x.strides.length = target.length)
    (hall : ∀ p ∈ x.shape.zip target, p.1 < p.2 → p.1 = 1) :
    ∃ v, expand x target = .ok v := by
  have hmap : (∃ r, expandStrides x.shape target x.strides = .ok r) →
      ∃ v, expand x target = .ok v := by
    rintro ⟨r, hr⟩
    refine ⟨{ shape := target, strides := r, offset := x.offset,
              c_contiguous := false, f_contiguous := false,
              dtype := x.dtype }, ?_⟩
    unfold expand
    rw [if_pos ⟨h1, h2⟩, hr]
    rfl
  exact hmap ((expandStrides_ok_iff x.shape target x.strides h1
    (h1.trans h2.symm)).mpr hall)

/-- **C7 counterexample.** Expanding the freshly built shape-(3,) view to
target shape (2,) — a differing dimension of size 3 > 1 — does NOT raise
`ShapeError` as the claim requires: the code only checks dimensions where the
target is strictly larger, so it silently accepts the shrink and returns a
shape-(2,) view with the stride kept. -/
theorem expand_allows_shrink_cx :
    expand { shape := [3], strides := [1], offset := 0, c_contiguous := true,
             f_contiguous := true, dtype := Dtype.float32 } [2] =
      Except.ok { shape := [2], strides := [1], offset := 0,
                  c_contiguous := false, f_contiguous := false,
                  dtype := Dtype.float32 } := by
  rfl

/-- **C7 (amended).** For every view and equal-rank target shape, `expand`
succeeds exactly when every dimension that is GROWN (current size strictly
below the target) is currently size 1 — growing a dimension of size > 1
raises `ShapeError`, while a dimension whose target is smaller or equal is
accepted unchecked (a smaller target silently shrinks it).  On success the
stride of each grown dimension becomes 0, the other strides are kept, the
offset is kept, and the result is marked neither C- nor F-contiguous. -/
theorem expand_amended_correct (x : View) (target : List Nat)
    (h1 : x.shape.length = target.length)
    (h2 : x.strides.length = target.length) :
    ((∃ v, expand x target = .ok v) ↔
      ∀ p ∈ x.shape.zip target, p.1 < p.2 → p.1 = 1) ∧
    ∀ v, expand x target = .ok v →
      v.shape = target ∧
      v.strides = (x.shape.zip (target.zip x.strides)).map
        (fun p => if p.1 < p.2.1 then 0 else p.2.2) ∧
      v.offset = x.offset ∧ v.c_contiguous = false ∧ v.f_contiguous = false := by
  constructor
  · have hmap : (∃ v, expand x target = .ok v) ↔
        ∃ r, expandStrides x.shape target x.strides = .ok r := by
      unfold expand
      rw [if_pos ⟨h1, h2⟩]
      cases hE : expandStrides x.shape target x.strides with
      | ok r => simp [Except.map]
      | error e => simp [Except.map]
    rw [hmap]
    simpa using expandStrides_ok_iff x.shape target x.strides h1 (h1.trans h2.symm)
  · intro v hv
    obtain ⟨hs, ho, hc, hf, _, hE⟩ := expand_ok_fields x target v hv
    exact ⟨hs, expandStrides_ok_val _ _ _ _ hE, ho, hc, hf⟩

/-- Witness for C7 (amended) at the view (3,1) with strides (1,1), expanded
to (3,4): dimension 1 grows from size 1 (stride becomes 0), dimension 0 is
unchanged. -/
theorem expand_amended_correct_witness :
    (((∃ v, expand { shape := [3, 1], strides := [1, 1], offset := 0,
                     c_contiguous := true, f_contiguous := true,
                     dtype := Dtype.float32 } [3, 4] = .ok v) ↔
      ∀ p ∈ ([3, 1] : List Nat).zip [3, 4], p.1 < p.2 → p.1 = 1) ∧
    ∀ v, expand { shape := [3, 1], strides := [1, 1], offset := 0,
                  c_contiguous := true, f_contiguous := true,
                  dtype := Dtype.float32 } [3, 4] = .ok v →
      v.shape = [3, 4] ∧
      v.strides = (([3, 1] : List Nat).zip (([3, 4] : List Nat).zip [1, 1])).map
        (fun p => if p.1 < p.2.1 then 0 else p.2.2) ∧
      v.offset = 0 ∧ v.c_contiguous = false ∧ v.f_contiguous = false) :=
  expand_amended_correct _ _ (by decide) (by decide)

/-! ### C3: broadcast -/

theorem zipWith_max_self (l : List Nat) : List.zipWith max l l = l := by
  induction l with
  | nil => rfl
  | cons d ds ih => simp [ih]

theorem badPair_symm (x y : Nat) : badPair (x, y) = badPair (y, x) := by
  by_cases h1 : x = y <;> by_cases h2 : x = 1 <;> by_cases h3 : y = 1 <;>
    simp [badPair, h1, h2, h3] <;> omega

theorem zip_any_badPair_symm : ∀ (l1 l2 : List Nat),
    (l1.zip l2).any badPair = (l2.zip l1).any badPair := by
  intro l1
  induction l1 with
  | nil => intro l2; cases l2 <;> rfl
  | cons x r1 ih =>
    intro l2
    cases l2 with
    | nil => rfl
    | cons y r2 => simp [badPair_symm x y, ih r2]

theorem zipWith_max_comm (l1 l2 : List Nat) :
    List.zipWith max l1 l2 = List.zipWith max l2 l1 := by
  induction l1 generalizing l2 with
  | nil => cases l2 <;> rfl
  | cons x r1 ih =>
    cases l2 with
    | nil => rfl
    | cons y r2 => simp [ih r2, Nat.max_comm]

theorem expand_target_ok : ∀ (s1l s2l : List Nat),
    (s1l.zip s2l).any badPair = false →
    (∀ d ∈ s1l, 0 < d) → (∀ d ∈ s2l, 0 < d) →
    ∀ p ∈ s1l.zip (List.zipWith max s1l s2l), p.1 < p.2 → p.1 = 1 := by
  intro s1l
  induction s1l with
  | nil => intro s2l _ _ _ p hp; simp at hp
  | cons s1 r1 ih =>
    intro s2l hcompat hpos1 hpos2 p hp hlt
    cases s2l with
    | nil => simp at hp
    | cons s2 r2 =>
      rw [List.zip_cons_cons, List.any_cons, Bool.or_eq_false_iff] at hcompat
      rcases List.mem_cons.mp (by simpa using hp) with heq | hp'
      · have hps1 : 0 < s1 := hpos1 s1 (by simp)
        have hbad := hcompat.1
        simp only [badPair, Bool.and_eq_false_iff, decide_eq_false_iff_not,
          Decidable.not_not] at hbad
        subst heq
        simp only at hlt
        have hlt2 : s1 < s2 := by
          rcases lt_max_iff.mp hlt with h | h
          · omega
          · exact h
        rcases hbad with h | h
        · rcases h with h | h <;> omega
        · omega
      · exact ih r2 hcompat.2 (fun d hd => hpos1 d (List.mem_cons_of_mem _ hd))
          (fun d hd => hpos2 d (List.mem_cons_of_mem _ hd)) p hp' hlt

/-- **C3 counterexample.** Broadcasting shape (3,) against shape (2,3):
after left-padding, the aligned pairs ((1,2) and (3,3)) are all compatible,
so the claimed procedure (pad first, then check) succeeds with target (2,3).
The code instead checks `zip(a.shape, b.shape)` of the ORIGINAL shapes —
left-aligned, pairing 3 with 2 — and raises `ShapeError`. -/
theorem broadcast_checks_before_padding_cx :
    broadcast (mkGPUArray [(5 : Int), 6, 7] [3]).1 (mkGPUArray [(5 : Int), 6, 7] [3]).2
        (mkGPUArray [(1 : Int), 2, 3, 4, 5, 6] [2, 3]).1
        (mkGPUArray [(1 : Int), 2, 3, 4, 5, 6] [2, 3]).2 = .error "ShapeError" ∧
    ((List.replicate (2 - 1) (1 : Nat) ++ [3]).zip [2, 3]).all
        (fun p => !badPair p) = true := by
  exact ⟨by rfl, by decide⟩

theorem neg_one_not_mem_padShape (nd : Nat) (shape : List Nat) :
    (-1 : Int) ∉ padShape nd shape := by
  intro hmem
  rw [padShape, List.mem_append] at hmem
  rcases hmem with h | h
  · have := List.eq_of_mem_replicate h
    omega
  · obtain ⟨d, _, hd⟩ := List.mem_map.mp h
    omega

theorem padShape_all_nonneg (nd : Nat) (shape : List Nat) :
    ((padShape nd shape).all fun s => decide (0 ≤ s)) = true := by
  rw [List.all_eq_true]
  intro s hs
  rw [padShape, List.mem_append] at hs
  rcases hs with h | h
  · rw [List.eq_of_mem_replicate h]
    decide
  · obtain ⟨d, _, rfl⟩ := List.mem_map.mp h
    simp

theorem padShape_toNat (nd : Nat) (shape : List Nat) :
    (padShape nd shape).map Int.toNat = paddedShape nd shape := by
  rw [padShape, paddedShape, List.map_append, List.map_replicate, List.map_map]
  have h2 : (Int.toNat ∘ fun d : Nat => (d : Int)) = id := by
    funext d
    simp [Function.comp]
  rw [h2, List.map_id]
  rfl

theorem prodl_paddedShape (nd : Nat) (l : List Nat) :
    prodl (paddedShape nd l) = prodl l := by
  simp [paddedShape, prodl, List.prod_append, List.prod_replicate, one_pow]

theorem paddedShape_length (nd : Nat) (l : List Nat) (h : l.length ≤ nd) :
    (paddedShape nd l).length = nd := by
  simp [paddedShape]
  omega

theorem paddedShape_pos (nd : Nat) (l : List Nat) (h : ∀ d ∈ l, 0 < d) :
    ∀ d ∈ paddedShape nd l, 0 < d := by
  intro d hd
  rw [paddedShape, List.mem_append] at hd
  rcases hd with h1 | h1
  · rw [List.eq_of_mem_replicate h1]
    decide
  · exact h d h1

theorem reshapeCore_strides_length (x : View) (shape : List Nat) :
    (reshapeCore x shape).strides.length = shape.length := by
  cases hc : x.c_contiguous <;>
    simp [reshapeCore, hc, contigStridesC, contigStridesF]

theorem resolveShape_padShape (size nd : Nat) (shape : List Nat) :
    resolveShape size (padShape nd shape) = .ok (padShape nd shape) := by
  unfold resolveShape
  rw [if_neg (neg_one_not_mem_padShape nd shape)]

theorem reshape_padShape_ok (x : View) (buf : Buf) (nd : Nat)
    (hcon : x.c_contiguous = true ∨ x.f_contiguous = true) :
    reshape x buf (padShape nd x.shape) =
      .ok (reshapeCore x (paddedShape nd x.shape), buf) := by
  have hflag : (x.c_contiguous || x.f_contiguous) = true := by
    rcases hcon with h | h <;> simp [h]
  unfold reshape
  rw [resolveShape_padShape]
  show reshapeChecked x buf (padShape nd x.shape) = _
  unfold reshapeChecked
  rw [if_pos (padShape_all_nonneg nd x.shape), padShape_toNat,
    prodl_paddedShape, if_pos rfl, if_pos hflag]

theorem reshape_padShape_crash (x : View) (buf : Buf) (nd : Nat)
    (hc : x.c_contiguous = false) (hf : x.f_contiguous = false) :
    reshape x buf (padShape nd x.shape) = .error "AttributeError" := by
  unfold reshape
  rw [resolveShape_padShape]
  show reshapeChecked x buf (padShape nd x.shape) = _
  unfold reshapeChecked
  rw [if_pos (padShape_all_nonneg nd x.shape), padShape_toNat,
    prodl_paddedShape, if_pos rfl, hc, hf]
  rfl

theorem broadcastExpand_ok (a1 : View) (bufA1 : Buf) (b1 : View) (bufB1 : Buf)
    (hlen : a1.shape.length = b1.shape.length)
    (hwa : a1.shape.length = a1.strides.length)
    (hwb : b1.shape.length = b1.strides.length)
    (hcompat : (a1.shape.zip b1.shape).any badPair = false)
    (hpos1 : ∀ d ∈ a1.shape, 0 < d) (hpos2 : ∀ d ∈ b1.shape, 0 < d) :
    ∃ a2 b2,
      broadcastExpand a1 bufA1 b1 bufB1 = .ok ((a2, bufA1), (b2, bufB1)) ∧
      a2.shape = List.zipWith max a1.shape b1.shape ∧
      b2.shape = List.zipWith max a1.shape b1.shape := by
  have hlenT : (List.zipWith max a1.shape b1.shape).length = a1.shape.length := by
    simp [hlen]
  have hA : ∃ a2, (if a1.shape ≠ List.zipWith max a1.shape b1.shape
      then expand a1 (List.zipWith max a1.shape b1.shape) else .ok a1) = .ok a2 ∧
      a2.shape = List.zipWith max a1.shape b1.shape := by
    by_cases hEq : a1.shape = List.zipWith max a1.shape b1.shape
    · exact ⟨a1, by rw [if_neg (fun h => h hEq)], hEq⟩
    · obtain ⟨va, hva⟩ := expand_ok_of_growth a1
        (List.zipWith max a1.shape b1.shape) hlenT.symm
        (by rw [hlenT]; exact hwa.symm)
        (expand_target_ok a1.shape b1.shape hcompat hpos1 hpos2)
      exact ⟨va, by rw [if_pos hEq]; exact hva, (expand_ok_fields _ _ _ hva).1⟩
  have hB : ∃ b2, (if b1.shape ≠ List.zipWith max a1.shape b1.shape
      then expand b1 (List.zipWith max a1.shape b1.shape) else .ok b1) = .ok b2 ∧
      b2.shape = List.zipWith max a1.shape b1.shape := by
    have hcompat2 : (b1.shape.zip a1.shape).any badPair = false := by
      rw [← zip_any_badPair_symm]
      exact hcompat
    have hcomm : List.zipWith max b1.shape a1.shape =
        List.zipWith max a1.shape b1.shape := zipWith_max_comm _ _
    by_cases hEq : b1.shape = List.zipWith max a1.shape b1.shape
    · exact ⟨b1, by rw [if_neg (fun h => h hEq)], hEq⟩
    · obtain ⟨vb, hvb⟩ := expand_ok_of_growth b1
        (List.zipWith max a1.shape b1.shape)
        (by rw [hlenT, hlen]) (by rw [hlenT, hlen]; exact hwb.symm)
        (by rw [← hcomm]
            exact expand_target_ok b1.shape a1.shape hcompat2 hpos2 hpos1)
      exact ⟨vb, by rw [if_pos hEq]; exact hvb, (expand_ok_fields _ _ _ hvb).1⟩
  obtain ⟨a2, hA1, hA2⟩ := hA
  obtain ⟨b2, hB1, hB2⟩ := hB
  refine ⟨a2, b2, ?_, hA2, hB2⟩
  unfold broadcastExpand
  rw [hA1, hB1]

/-- **C3 (amended).** `broadcast(a, b)` with unequal shapes FIRST checks the
zip of the two ORIGINAL shapes — aligned from the left and truncated to the
shorter rank — requiring equality or one side 1 for each pair and raising
`ShapeError` otherwise.  Only then does it pad the shorter shape on the left
with size-1 dimensions via `reshape`; since `reshape` of a view that is
neither C- nor F-contiguous materializes through the crashing
`contiguous_op`, the padding stage raises `AttributeError` for a
non-contiguous shorter operand.  When padding applies to a C- or
F-contiguous operand (or ranks already match), `broadcast` takes the
elementwise maximum of the rank-aligned (padded) shapes as the target —
provided those re-aligned pairs are compatible — and expands each operand
whose shape differs from the target.  In particular (3,1,1) with (1,3,3)
yields (3,3,3), and (3,2) with (4,2) raises `ShapeError`. -/
theorem broadcast_amended_correct (a : View) (bufA : Buf) (b : View)
    (bufB : Buf)
    (hwa : a.shape.length = a.strides.length)
    (hwb : b.shape.length = b.strides.length) :
    (a.shape ≠ b.shape → (a.shape.zip b.shape).any badPair = true →
       broadcast a bufA b bufB = .error "ShapeError") ∧
    ((a.shape.zip b.shape).any badPair = false →
     ((paddedShape (max a.shape.length b.shape.length) a.shape).zip
        (paddedShape (max a.shape.length b.shape.length) b.shape)).any badPair
          = false →
     (∀ d ∈ a.shape, 0 < d) → (∀ d ∈ b.shape, 0 < d) →
     (a.shape.length ≠ max a.shape.length b.shape.length →
        a.c_contiguous = true ∨ a.f_contiguous = true) →
     (b.shape.length ≠ max a.shape.length b.shape.length →
        b.c_contiguous = true ∨ b.f_contiguous = true) →
     ∃ a2 bufA2 b2 bufB2,
       broadcast a bufA b bufB = .ok ((a2, bufA2), (b2, bufB2)) ∧
       a2.shape = List.zipWith max
         (paddedShape (max a.shape.length b.shape.length) a.shape)
         (paddedShape (max a.shape.length b.shape.length) b.shape) ∧
       b2.shape = List.zipWith max
         (paddedShape (max a.shape.length b.shape.length) a.shape)
         (paddedShape (max a.shape.length b.shape.length) b.shape)) ∧
    (a.shape.length < b.shape.length →
     (a.shape.zip b.shape).any badPair = false →
     a.c_contiguous = false → a.f_contiguous = false →
     broadcast a bufA b bufB = .error "AttributeError") ∧
    (b.shape.length < a.shape.length →
     (a.shape.zip b.shape).any badPair = false →
     b.c_contiguous = false → b.f_contiguous = false →
     broadcast a bufA b bufB = .error "AttributeError") := by
  refine ⟨?_, ?_, ?_, ?_⟩
  · intro hne hbad
    unfold broadcast
    rw [if_neg hne, if_pos hbad]
  · intro hc0 hcP hpos1 hpos2 hconA hconB
    by_cases heq : a.shape = b.shape
    · have hL : a.shape.length = b.shape.length := by rw [heq]
      have hndA : max a.shape.length b.shape.length = a.shape.length := by
        omega
      have hpadA : paddedShape (max a.shape.length b.shape.length) a.shape =
          a.shape := by
        rw [paddedShape, hndA, Nat.sub_self]
        simp
      have hpadB : paddedShape (max a.shape.length b.shape.length) b.shape =
          b.shape := by
        rw [paddedShape, hndA, hL, Nat.sub_self]
        simp
      refine ⟨a, bufA, b, bufB, ?_, ?_, ?_⟩
      · unfold broadcast
        rw [if_pos heq]
      · rw [hpadA, hpadB, heq, zipWith_max_self]
      · rw [hpadA, hpadB, heq, zipWith_max_self]
    · have hc0' : ¬((a.shape.zip b.shape).any badPair = true) := by
        simp [hc0]
      have hA : ∃ a1, (if a.shape.length ≠ max a.shape.length b.shape.length
          then reshape a bufA
            (padShape (max a.shape.length b.shape.length) a.shape)
          else .ok (a, bufA)) = .ok (a1, bufA) ∧
          a1.shape = paddedShape (max a.shape.length b.shape.length) a.shape ∧
          a1.shape.length = a1.strides.length := by
        by_cases hne : a.shape.length ≠ max a.shape.length b.shape.length
        · refine ⟨reshapeCore a
              (paddedShape (max a.shape.length b.shape.length) a.shape),
            ?_, rfl, ?_⟩
          · rw [if_pos hne, reshape_padShape_ok a bufA _ (hconA hne)]
          · show (paddedShape (max a.shape.length b.shape.length)
                a.shape).length = _
            rw [reshapeCore_strides_length]
        · have hEq := not_not.mp hne
          refine ⟨a, by rw [if_neg hne], ?_, hwa⟩
          rw [paddedShape, ← hEq, Nat.sub_self]
          simp
      have hB : ∃ b1, (if b.shape.length ≠ max a.shape.length b.shape.length
          then reshape b bufB
            (padShape (max a.shape.length b.shape.length) b.shape)
          else .ok (b, bufB)) = .ok (b1, bufB) ∧
          b1.shape = paddedShape (max a.shape.length b.shape.length) b.shape ∧
          b1.shape.length = b1.strides.length := by
        by_cases hne : b.shape.length ≠ max a.shape.length b.shape.length
        · refine ⟨reshapeCore b
              (paddedShape (max a.shape.length b.shape.length) b.shape),
            ?_, rfl, ?_⟩
          · rw [if_pos hne, reshape_padShape_ok b bufB _ (hconB hne)]
          · show (paddedShape (max a.shape.length b.shape.length)
                b.shape).length = _
            rw [reshapeCore_strides_length]
        · have hEq := not_not.mp hne
          refine ⟨b, by rw [if_neg hne], ?_, hwb⟩
          rw [paddedShape, ← hEq, Nat.sub_self]
          simp
      obtain ⟨a1, hA1, hA2, hA3⟩ := hA
      obtain ⟨b1, hB1, hB2, hB3⟩ := hB
      have hb : broadcast a bufA b bufB = broadcastExpand a1 bufA b1 bufB := by
        unfold broadcast
        rw [if_neg heq, if_neg hc0', hA1, hB1]
      have hlen1 : a1.shape.length = b1.shape.length := by
        rw [hA2, hB2, paddedShape_length _ _ (Nat.le_max_left _ _),
          paddedShape_length _ _ (Nat.le_max_right _ _)]
      obtain ⟨a2, b2, hE, hEa, hEb⟩ := broadcastExpand_ok a1 bufA b1 bufB
        hlen1 hA3 hB3 (by rw [hA2, hB2]; exact hcP)
        (by rw [hA2]; exact paddedShape_pos _ _ hpos1)
        (by rw [hB2]; exact paddedShape_pos _ _ hpos2)
      refine ⟨a2, bufA, b2, bufB, ?_, ?_, ?_⟩
      · rw [hb, hE]
      · rw [hEa, hA2, hB2]
      · rw [hEb, hA2, hB2]
  · intro hlt hc0 hcf hff
    have heq : a.shape ≠ b.shape := by
      intro h
      have := congrArg List.length h
      omega
    have hc0' : ¬((a.shape.zip b.shape).any badPair = true) := by simp [hc0]
    have hne : a.shape.length ≠ max a.shape.length b.shape.length := by omega
    unfold broadcast
    rw [if_neg heq, if_neg hc0', if_pos hne,
      reshape_padShape_crash a bufA _ hcf hff]
  · intro hlt hc0 hcf hff
    have heq : a.shape ≠ b.shape := by
      intro h
      have := congrArg List.length h
      omega
    have hc0' : ¬((a.shape.zip b.shape).any badPair = true) := by simp [hc0]
    have hndA : ¬(a.shape.length ≠ max a.shape.length b.shape.length) := by
      omega
    have hne : b.shape.length ≠ max a.shape.length b.shape.length := by omega
    unfold broadcast
    rw [if_neg heq, if_neg hc0', if_neg hndA, if_pos hne,
      reshape_padShape_crash b bufB _ hcf hff]

/-- Witness for C3 (amended): the fresh arrays of shapes (3,1,1) and (1,3,3)
broadcast to (3,3,3); the fresh shape-(3,) array broadcast against a fresh
(3,3) array exercises the left-padding stage and yields (3,3); a
NON-contiguous shape-(3,) view against a (3,3) array crashes with
`AttributeError` in the padding stage; and shapes (3,2) against (4,2) raise
`ShapeError` from the compatibility check. -/
theorem broadcast_amended_correct_witness :
    (∃ a2 bufA2 b2 bufB2,
      broadcast
        { shape := [3, 1, 1], strides := [1, 1, 1], offset := 0,
          c_contiguous := true, f_contiguous := true, dtype := Dtype.float32 }
        [(1 : Int), 2, 3]
        { shape := [1, 3, 3], strides := [9, 3, 1], offset := 0,
          c_contiguous := true, f_contiguous := false, dtype := Dtype.float32 }
        [(1 : Int), 2, 3, 4, 5, 6, 7, 8, 9] = .ok ((a2, bufA2), (b2, bufB2)) ∧
      a2.shape = [3, 3, 3] ∧ b2.shape = [3, 3, 3]) ∧
    (∃ a2 bufA2 b2 bufB2,
      broadcast
        { shape := [3], strides := [1], offset := 0,
          c_contiguous := true, f_contiguous := true, dtype := Dtype.float32 }
        [(5 : Int), 6, 7]
        { shape := [3, 3], strides := [3, 1], offset := 0,
          c_contiguous := true, f_contiguous := false, dtype := Dtype.float32 }
        [(1 : Int), 2, 3, 4, 5, 6, 7, 8, 9] = .ok ((a2, bufA2), (b2, bufB2)) ∧
      a2.shape = [3, 3] ∧ b2.shape = [3, 3]) ∧
    broadcast
        { shape := [3], strides := [2], offset := 0,
          c_contiguous := false, f_contiguous := false,
          dtype := Dtype.float32 }
        [(1 : Int), 2, 3, 4, 5, 6]
        { shape := [3, 3], strides := [3, 1], offset := 0,
          c_contiguous := true, f_contiguous := false, dtype := Dtype.float32 }
        [(1 : Int), 2, 3, 4, 5, 6, 7, 8, 9] = .error "AttributeError" ∧
    broadcast
        { shape := [3, 2], strides := [2, 1], offset := 0,
          c_contiguous := true, f_contiguous := false, dtype := Dtype.float32 }
        [(1 : Int), 1, 1, 1, 1, 1]
        { shape := [4, 2], strides := [2, 1], offset := 0,
          c_contiguous := true, f_contiguous := false, dtype := Dtype.float32 }
        [(2 : Int), 2, 2, 2, 2, 2, 2, 2] = .error "ShapeError" :=
  ⟨(broadcast_amended_correct _ _ _ _ (by decide) (by decide)).2.1
      (by decide) (by decide) (by decide) (by decide) (by decide) (by decide),
   (broadcast_amended_correct _ _ _ _ (by decide) (by decide)).2.1
      (by decide) (by decide) (by decide) (by decide) (by decide) (by decide),
   (broadcast_amended_correct _ _ _ _ (by decide) (by decide)).2.2.1
      (by decide) (by decide) (by decide) (by decide),
   (broadcast_amended_correct _ _ _ _ (by decide) (by decide)).1
      (by decide) (by decide)⟩

/-! ### C4: matmul -/

/-- **C4 (code bug).** Every `matmul_op` call raises `AttributeError`: the
kernel-argument list (`ops_gpu.py` line 118) reads `a._c_contiguous` and
`b._c_contiguous`, attributes `GPUArray` never defines (its flag is
`c_contiguous`).  In particular the claim's own example
`[[1,2,3],[4,5,6]] @ [[7,8],[9,10],[11,12]]` crashes instead of returning
`[[58,64],[139,154]]`; the repository's own `test_matmul_op` compares every
product against numpy and cannot pass on this source. -/
theorem matmul_op_attribute_crash :
    (∀ (a : View) (bufA : Buf) (b : View) (bufB : Buf),
      matmul_op a bufA b bufB = Except.error "AttributeError") ∧
    matmul_op (mkGPUArray [1, 2, 3, 4, 5, 6] [2, 3]).1
        (mkGPUArray [1, 2, 3, 4, 5, 6] [2, 3]).2
        (mkGPUArray [7, 8, 9, 10, 11, 12] [3, 2]).1
        (mkGPUArray [7, 8, 9, 10, 11, 12] [3, 2]).2 =
      Except.error "AttributeError" :=
  ⟨fun _ _ _ _ => rfl, rfl⟩

/-! ### C5: reduction at length 65 -/

set_option maxRecDepth 4000 in
/-- **C5 (code bug).** For the 1-D input `[0, 1, ..., 64]` of length 65 the
code does NOT match a straightforward linear reduction: `n_groups = 65 // 16
= 4`, so the pass output holds one partial per full group and the 65th
element (index 64) is dropped (its work item writes out of bounds of the
4-element output buffer; the launch is also a non-uniform 65-into-16
grouping).  `sum` returns 2016 = `Σ 0..63` instead of 2080 = `Σ 0..64`, and
`max` returns 63 instead of 64 — contradicting the claim and the repository's
own `test_reduce_op`, which checks shape `(2**6+1,)` against numpy. -/
theorem reduce_op_drops_tail_at_65 :
    reduce_op (fun a b => a + b) ((List.range 65).map fun n => (n : Int)) =
      [2016] ∧
    reduce_op max ((List.range 65).map fun n => (n : Int)) = [63] ∧
    ((List.range 65).map fun n => (n : Int)).sum = 2080 ∧
    ((List.range 65).map fun n => (n : Int)).foldl max 0 = 64 ∧
    (2016 : Int) ≠ 2080 ∧ (63 : Int) ≠ 64 := by
  exact ⟨by decide, by decide, by decide, by decide, by decide, by decide⟩

/-! ### C6: indexing and slicing -/

theorem getitemAux_spec : ∀ (key : List IndexKey) (ds sts : List Nat),
    key.length ≤ ds.length → key.length ≤ sts.length →
    getitemAux key ds sts =
      (match specDims (key.zip (ds.zip sts)) with
      | .error e => .error e
      | .ok outs => .ok (outs.filterMap Prod.fst ++
          (ds.drop key.length).zip (sts.drop key.length),
          (outs.map Prod.snd).sum, key.any isSliceKey)) := by
  intro key
  induction key with
  | nil =>
    intro ds sts _ _
    simp [getitemAux, specDims]
  | cons k ks ih =>
    intro ds sts h1 h2
    cases ds with
    | nil => simp at h1
    | cons d ds' =>
      cases sts with
      | nil => simp at h2
      | cons st sts' =>
        simp only [List.length_cons, Nat.succ_le_succ_iff] at h1 h2
        have hrec := ih ds' sts' h1 h2
        cases k with
        | ix n =>
          rw [List.zip_cons_cons]
          by_cases hc : 0 ≤ (if n < 0 then n + (d : Int) else n) ∧
              (if n < 0 then n + (d : Int) else n) < (d : Int)
          · cases hout : specDims (ks.zip (ds'.zip sts')) with
            | error e =>
              rw [hout] at hrec
              rw [List.zip_eq_zipWith] at hout
              simp [getitemAux, specDims, specDim, hc, hrec, hout]
            | ok outs =>
              rw [hout] at hrec
              rw [List.zip_eq_zipWith] at hout
              simp [getitemAux, specDims, specDim, hc, hrec, hout,
                isSliceKey, Nat.add_assoc]
          · simp [getitemAux, specDims, specDim, hc]
        | slc s e =>
          rw [List.zip_cons_cons]
          by_cases hc : 0 ≤ (match s with
                | none => (0 : Int)
                | some v => if v < 0 then v + (d : Int) else v) ∧
              (match s with
                | none => (0 : Int)
                | some v => if v < 0 then v + (d : Int) else v) <
                (match e with
                | none => (d : Int)
                | some v => if v < 0 then v + (d : Int) else v) ∧
              (match e with
                | none => (d : Int)
                | some v => if v < 0 then v + (d : Int) else v) ≤ (d : Int)
          · cases hout : specDims (ks.zip (ds'.zip sts')) with
            | error e' =>
              rw [hout] at hrec
              rw [List.zip_eq_zipWith] at hout
              simp [getitemAux, specDims, specDim, hc, hrec, hout]
            | ok outs =>
              rw [hout] at hrec
              rw [List.zip_eq_zipWith] at hout
              simp [getitemAux, specDims, specDim, hc, hrec, hout,
                isSliceKey, Nat.add_assoc]
          · simp [getitemAux, specDims, specDim, hc]

/-- **C6.** `__getitem__` behaves, dimension by dimension, as the claim
describes: an integer index wraps by the dimension size when negative
("modulo" in the one-wrap numpy sense), raises `IndexError` when out of range
after wrapping, removes its dimension and adds `stride[i] * index` to the
offset; a slice defaults to `0:size`, wraps negative endpoints, raises
`IndexError` unless `0 ≤ start < stop ≤ size`, sets `shape[i] = stop-start`,
adds `stride[i] * start` to the offset, and marks the whole result as neither
C- nor F-contiguous.  The code side `getitem` equals the clause-by-clause
spec-side `getitemSpec` for every view and key of length at most the rank. -/
theorem getitem_matches_spec (x : View) (key : List IndexKey)
    (h1 : key.length ≤ x.shape.length) (h2 : key.length ≤ x.strides.length) :
    getitem x key = getitemSpec x key := by
  unfold getitem getitemSpec
  rw [getitemAux_spec key x.shape x.strides h1 h2]
  cases hout : specDims (key.zip (x.shape.zip x.strides)) with
  | error e => rfl
  | ok outs => rfl

/-- Witness for C6 at the view (3,4) with key `[-1, 1:]`: the negative index
wraps to 2 (offset `+= 4*2`), the slice keeps 3 of 4 elements
(offset `+= 1*1`) and clears both contiguity flags. -/
theorem getitem_matches_spec_witness :
    getitem
        { shape := [3, 4], strides := [4, 1], offset := 0,
          c_contiguous := true, f_contiguous := false,
          dtype := Dtype.float32 }
        [IndexKey.ix (-1), IndexKey.slc (some 1) none] =
      getitemSpec
        { shape := [3, 4], strides := [4, 1], offset := 0,
          c_contiguous := true, f_contiguous := false,
          dtype := Dtype.float32 }
        [IndexKey.ix (-1), IndexKey.slc (some 1) none] ∧
    getitem
        { shape := [3, 4], strides := [4, 1], offset := 0,
          c_contiguous := true, f_contiguous := false,
          dtype := Dtype.float32 }
        [IndexKey.ix (-1), IndexKey.slc (some 1) none] =
      Except.ok
        { shape := [3], strides := [1], offset := 9,
          c_contiguous := false, f_contiguous := false,
          dtype := Dtype.float32 } :=
  ⟨getitem_matches_spec _ _ (by decide) (by decide), by rfl⟩

/-! ### C8: elementwise kernels and offsets -/

/-- **C8.** The generated unary/binary kernels address every operand solely
by `Σ global-id_i * stride_i`; no offset argument exists, so changing any
operand's (or the destination's) offset field changes nothing about what the
operation reads or writes — the buffers produced are identical to those for
offset 0.  (For the binary case the operands are taken already
broadcast-compatible — equal shapes — which is the state in which the kernel
is launched.) -/
theorem elementwise_kernels_ignore_offsets
    (f : Int → Int) (g : Int → Int → Int) (a : View) (bufA : Buf) (b : View)
    (bufB : Buf) (rv : View) (rb : Buf) (o1 o2 o3 : Nat)
    (hs : a.shape = b.shape) :
    (unary_op f { a with offset := o1 } bufA
        (some ({ rv with offset := o3 }, rb))).2 =
      (unary_op f a bufA (some (rv, rb))).2 ∧
    (binary_op g { a with offset := o1 } bufA { b with offset := o2 } bufB
        none).map Prod.snd =
      (binary_op g a bufA b bufB none).map Prod.snd := by
  constructor
  · rfl
  · unfold binary_op broadcast
    have hs' : ({ a with offset := o1 } : View).shape =
        ({ b with offset := o2 } : View).shape := hs
    rw [if_pos hs', if_pos hs]
    rfl

/-- Witness for C8 (and demonstration): on the sliced view `base[1:3]` of
`[10,20,30,40]` (offset 1), negation reads the buffer from address 0 — as if
the offset were 0 — producing `[-10,-20]` rather than `[-20,-30]`. -/
theorem elementwise_kernels_ignore_offsets_witness :
    ((unary_op (fun v => -v)
        { shape := [2], strides := [1], offset := 1, c_contiguous := false,
          f_contiguous := false, dtype := Dtype.float32 } [10, 20, 30, 40]
        (some ({ shape := [2], strides := [1], offset := 5,
                 c_contiguous := true, f_contiguous := true,
                 dtype := Dtype.float32 }, [0, 0]))).2 =
      (unary_op (fun v => -v)
        { shape := [2], strides := [1], offset := 0, c_contiguous := false,
          f_contiguous := false, dtype := Dtype.float32 } [10, 20, 30, 40]
        (some ({ shape := [2], strides := [1], offset := 0,
                 c_contiguous := true, f_contiguous := true,
                 dtype := Dtype.float32 }, [0, 0]))).2 ∧
     (binary_op (fun u v => u + v)
        { shape := [2], strides := [1], offset := 1, c_contiguous := false,
          f_contiguous := false, dtype := Dtype.float32 } [10, 20, 30, 40]
        { shape := [2], strides := [1], offset := 2, c_contiguous := false,
          f_contiguous := false, dtype := Dtype.float32 } [1, 2, 3, 4]
        none).map Prod.snd =
      (binary_op (fun u v => u + v)
        { shape := [2], strides := [1], offset := 0, c_contiguous := false,
          f_contiguous := false, dtype := Dtype.float32 } [10, 20, 30, 40]
        { shape := [2], strides := [1], offset := 0, c_contiguous := false,
          f_contiguous := false, dtype := Dtype.float32 } [1, 2, 3, 4]
        none).map Prod.snd) ∧
    (unary_op (fun v => -v)
        { shape := [2], strides := [1], offset := 1, c_contiguous := false,
          f_contiguous := false, dtype := Dtype.float32 } [10, 20, 30, 40]
        none).2 = [-10, -20] :=
  ⟨elementwise_kernels_ignore_offsets (fun v => -v) (fun u v => u + v)
      { shape := [2], strides := [1], offset := 0, c_contiguous := false,
        f_contiguous := false, dtype := Dtype.float32 } [10, 20, 30, 40]
      { shape := [2], strides := [1], offset := 0, c_contiguous := false,
        f_contiguous := false, dtype := Dtype.float32 } [1, 2, 3, 4]
      { shape := [2], strides := [1], offset := 0, c_contiguous := true,
        f_contiguous := true, dtype := Dtype.float32 } [0, 0] 1 2 5
      (by decide),
   by decide⟩

/-! ### C9: transforms never mutate existing arrays -/

/-- **C9.** Every shape-transform operation (index/slice, reshape, permute,
expand) constructs a new descriptor from a shallow copy of the receiver:
running one on any array of the heap leaves every existing array's descriptor
and buffer contents unchanged, both when it succeeds (the result is a new
entry) and when it raises a shape or index error (the heap is untouched). -/
theorem xform_ops_preserve_existing (σ : List (View × Buf)) (i : Nat)
    (op : XformOp) (j : Nat) (hj : j < σ.length) :
    (runXform σ i op)[j]? = σ[j]? := by
  unfold runXform
  cases hσ : σ[i]? with
  | none => rfl
  | some vb =>
    obtain ⟨v, b⟩ := vb
    cases happ : applyXform v b op with
    | ok vb' =>
      simp only [happ]
      exact List.getElem?_append_left hj
    | error e => simp only [happ]

/-- Witness for C9: a one-array heap, expanding (1,) to (3,) — a success —
and expanding (2,) to (3,) — a `ShapeError` — both leave entry 0 intact. -/
theorem xform_ops_preserve_existing_witness :
    ((0 : Nat) < 1 ∧
      (runXform
        [({ shape := [1], strides := [1], offset := 0,
            c_contiguous := true, f_contiguous := true,
            dtype := Dtype.float32 }, [7])]
        0 (XformOp.expandOp [3]))[0]? =
        ([({ shape := [1], strides := [1], offset := 0,
             c_contiguous := true, f_contiguous := true,
             dtype := Dtype.float32 }, ([7] : Buf))] :
          List (View × Buf))[0]?) ∧
    (runXform
        [({ shape := [2], strides := [1], offset := 0,
            c_contiguous := true, f_contiguous := true,
            dtype := Dtype.float32 }, [7, 8])]
        0 (XformOp.expandOp [3]))[0]? =
      ([({ shape := [2], strides := [1], offset := 0,
           c_contiguous := true, f_contiguous := true,
           dtype := Dtype.float32 }, ([7, 8] : Buf))] :
        List (View × Buf))[0]? :=
  ⟨⟨by decide,
    xform_ops_preserve_existing _ 0 (XformOp.expandOp [3]) 0 (by decide)⟩,
   by rfl⟩

/-! ### C10: the kernel cache -/

/-- **C10 counterexample.** `cl_build` is wrapped in `functools.lru_cache()`
whose default `maxsize` is 128, so entries ARE evicted once more than 128
distinct keys have been inserted.  Requesting 129 distinct kernels and then
re-requesting the first compiles 130 times — the claim ("once stored an entry
is never evicted ... regardless of how many distinct keys are later
inserted") requires exactly 129. -/
theorem kernel_cache_eviction_cx :
    (runKeys emptyCache ((List.range 129) ++ [0])).compiles = 130 ∧
    (130 : Nat) ≠ 129 :=
  ⟨by set_option maxRecDepth 100000 in decide, by decide⟩

/-- **C10 (amended).** The kernel cache is keyed by (kernel name, generated
source text): looking up a key that is still stored returns the stored
compiled callable without compiling again — in particular invoking the same
(operation, rank, dtype) combination twice in succession triggers exactly one
compile.  But the cache is a default-sized `lru_cache` (capacity 128), so an
entry CAN be evicted once more than 128 distinct keys have been inserted;
entries are not kept unconditionally for the lifetime of the process. -/
theorem kernel_cache_repeat_no_recompile (c : KernelCache) (k : Nat) :
    (cl_buildC (cl_buildC c k).1 k).1.compiles = (cl_buildC c k).1.compiles ∧
    (cl_buildC (cl_buildC c k).1 k).2 = (cl_buildC c k).2 := by
  cases hl : c.entries.lookup k with
  | some v =>
    have h1 : (cl_buildC c k).1.entries =
        (k, v) :: c.entries.eraseP (fun p => p.1 == k) := by
      simp [cl_buildC, hl]
    have h2 : (cl_buildC c k).2 = v := by simp [cl_buildC, hl]
    have hl2 : (cl_buildC c k).1.entries.lookup k = some v := by
      rw [h1]; simp [List.lookup]
    constructor
    · simp [cl_buildC, hl, hl2]
    · simp [cl_buildC, hl, hl2, h2]
  | none =>
    have h1 : (cl_buildC c k).1.entries =
        (k, compileK k) :: c.entries.take 127 := by
      simp [cl_buildC, hl]
    have h2 : (cl_buildC c k).2 = compileK k := by simp [cl_buildC, hl]
    have hl2 : (cl_buildC c k).1.entries.lookup k = some (compileK k) := by
      rw [h1]; simp [List.lookup]
    constructor
    · simp [cl_buildC, hl, hl2]
    · simp [cl_buildC, hl, hl2, h2]

end TinyNN
